import Mathlib

/-!
Verification of the configuration-and-transport-selection layer of the
opentelemetry-otlp exporter crate.  The definitions below shallowly embed
`src/opentelemetry-otlp/src/lib.rs`: the error taxonomy `Error`, the
`From<tonic::Status>` conversion, the `ExportError` implementation, and the
`OtlpExporterPipeline` entry point.  Components whose code lives in the
crate's private `exporter` module (the Config Resolver, the Compression
Selector, and the HTTP builder's `build`) are modelled from the
specification; each such definition says so in its doc comment.
-/

namespace Otlp

/-- gRPC status codes, mirroring `tonic::Code`. -/
inductive Code where
  | ok
  | cancelled
  | unknown
  | invalidArgument
  | deadlineExceeded
  | notFound
  | alreadyExists
  | permissionDenied
  | resourceExhausted
  | failedPrecondition
  | aborted
  | outOfRange
  | unimplemented
  | internal
  | unavailable
  | dataLoss
  | unauthenticated
  deriving DecidableEq, Repr

/-- `tonic::Status`: its code, its message, and the `Debug` rendering of its
`source()` error when one is present (the conversion in `lib.rs` only ever
uses the status through `code()`, `message()` and the formatted `source()`,
so the embedding records exactly those three observations). -/
structure TonicStatus where
  code : Code
  message : String
  source : Option String
  deriving DecidableEq, Repr

/-- Opaque embedding of `tonic::transport::Error`. -/
structure TransportError where
  msg : String
  deriving DecidableEq, Repr

/-- Opaque embedding of `http::uri::InvalidUri`. -/
structure InvalidUriError where
  input : String
  deriving DecidableEq, Repr

/-- Opaque embedding of `opentelemetry_http::HttpError`. -/
structure HttpError where
  msg : String
  deriving DecidableEq, Repr

/-- Opaque embedding of `http::header::InvalidHeaderValue`. -/
structure InvalidHeaderValueError where
  msg : String
  deriving DecidableEq, Repr

/-- Opaque embedding of `http::header::InvalidHeaderName`. -/
structure InvalidHeaderNameError where
  msg : String
  deriving DecidableEq, Repr

/-- Opaque embedding of `prost::EncodeError`. -/
structure ProstEncodeError where
  msg : String
  deriving DecidableEq, Repr

/-- The `Compression` enum re-exported by `lib.rs` (algorithm identifiers). -/
inductive Compression where
  | gzip
  | zstd
  deriving DecidableEq, Repr

/-- The crate error type `Error` from `lib.rs`, one constructor per variant,
with every `cfg`-gated variant present (the embedding takes all transport
features as compiled in, which is the configuration under which the full
taxonomy exists). -/
inductive Error where
  | Transport (e : TransportError)
  | InvalidUri (e : InvalidUriError)
  | Status (code : Code) (message : String)
  | NoHttpClient
  | RequestFailed (e : HttpError)
  | InvalidHeaderValue (e : InvalidHeaderValueError)
  | InvalidHeaderName (e : InvalidHeaderNameError)
  | EncodeError (e : ProstEncodeError)
  | PoisonedLock (resource : String)
  | UnsupportedCompressionAlgorithm (name : String)
  | FeatureRequiredForCompressionAlgorithm (feature : String) (algorithm : Compression)
  deriving DecidableEq, Repr

/-- `impl From<tonic::transport::Error> for Error`, generated by the
`#[from]` attribute on the `Transport` variant. -/
def errorFromTransport (e : TransportError) : Error :=
  Error.Transport e

/-- `impl From<http::uri::InvalidUri> for Error`, generated by the `#[from]`
attribute on the `InvalidUri` variant. -/
def errorFromInvalidUri (e : InvalidUriError) : Error :=
  Error.InvalidUri e

/-- `impl From<opentelemetry_http::HttpError> for Error`, generated by the
`#[from]` attribute on the `RequestFailed` variant. -/
def errorFromHttpError (e : HttpError) : Error :=
  Error.RequestFailed e

/-- `impl From<http::header::InvalidHeaderValue> for Error`, generated by the
`#[from]` attribute on the `InvalidHeaderValue` variant. -/
def errorFromInvalidHeaderValue (e : InvalidHeaderValueError) : Error :=
  Error.InvalidHeaderValue e

/-- `impl From<http::header::InvalidHeaderName> for Error`, generated by the
`#[from]` attribute on the `InvalidHeaderName` variant. -/
def errorFromInvalidHeaderName (e : InvalidHeaderNameError) : Error :=
  Error.InvalidHeaderName e

/-- `impl From<prost::EncodeError> for Error`, generated by the `#[from]`
attribute on the `EncodeError` variant. -/
def errorFromProstEncodeError (e : ProstEncodeError) : Error :=
  Error.EncodeError e

/-- The `Debug` rendering of `status.source()` the conversion pushes onto the
message, `source.map(|e| format!("{:?}", e)).unwrap_or_default()`. -/
def sourceDetail (status : TonicStatus) : String :=
  status.source.getD ""

/-- `impl From<tonic::Status> for Error` (`lib.rs` lines 383-405): the code is
copied; when the status message is non-empty the message field becomes
`", detailed error message: "` followed by the status message, and when the
code is `Unknown` a space and the formatted source are pushed on; when the
status message is empty the message field is `String::new()`. -/
def errorFromTonicStatus (status : TonicStatus) : Error :=
  Error.Status status.code
    (if status.message ≠ "" then
      let result := ", detailed error message: " ++ status.message
      if status.code = Code.unknown then
        result ++ " " ++ sourceDetail status
      else
        result
    else
      "")

/-- The `code` field of an `Error::Status`, `none` on every other variant. -/
def Error.statusCode : Error → Option Code
  | Error.Status c _ => some c
  | _ => none

/-- The `message` field of an `Error::Status`, `none` on every other variant. -/
def Error.statusMessage : Error → Option String
  | Error.Status _ m => some m
  | _ => none

/-- The formalisation of "the message is augmented with source detail": the
rendered source detail occurs verbatim inside the message field of the
converted error. -/
def messageContainsSourceDetail (status : TonicStatus) : Prop :=
  (sourceDetail status).data <:+: ((errorFromTonicStatus status).statusMessage.getD "").data

instance (status : TonicStatus) : Decidable (messageContainsSourceDetail status) := by
  unfold messageContainsSourceDetail
  infer_instance

/-- `impl ExportError for Error` (`lib.rs` lines 407-411): `exporter_name`
ignores the receiver and returns the literal `"otlp"`. -/
def Error.exporterName (_ : Error) : String :=
  "otlp"

/-- The built-in default endpoint, `OTEL_EXPORTER_OTLP_ENDPOINT_DEFAULT`. -/
def ENDPOINT_DEFAULT : String :=
  "http://localhost:4317"

/-- The built-in default timeout in milliseconds,
`OTEL_EXPORTER_OTLP_TIMEOUT_DEFAULT`. -/
def TIMEOUT_DEFAULT_MILLIS : Nat :=
  10000

/-- Modelled from the spec: the snapshot of the environment variables the
Config Resolver reads for one signal, the signal-specific value and its
signal-agnostic fallback for the endpoint and the timeout (the code of the
`exporter` module that reads them is not part of the visible source). -/
structure EnvSnapshot where
  signalEndpoint : Option String
  genericEndpoint : Option String
  signalTimeout : Option String
  genericTimeout : Option String
  deriving DecidableEq, Repr

/-- Modelled from the spec: endpoint resolution with precedence "explicit
builder call > signal-specific environment value > signal-agnostic
environment value > built-in default `http://localhost:4317`". -/
def resolveEndpoint (explicit : Option String) (env : EnvSnapshot) : String :=
  match explicit with
  | some v => v
  | none =>
    match env.signalEndpoint with
    | some v => v
    | none =>
      match env.genericEndpoint with
      | some v => v
      | none => ENDPOINT_DEFAULT

/-- Modelled from the spec: permissive parsing of an environment timeout
value, "timeout parses as a positive duration, otherwise falls back to
default with no error"; the value is a decimal millisecond count, so the
parse succeeds exactly when the string is non-empty, all digits, and denotes
a positive number. -/
def parseEnvTimeout (s : String) : Option Nat :=
  if s.data ≠ [] ∧ s.data.all Char.isDigit then
    let n := s.data.foldl (fun acc c => acc * 10 + (c.toNat - 48)) 0
    if 0 < n then some n else none
  else
    none

/-- Modelled from the spec: timeout resolution from the environment when no
explicit call was made, signal-specific over signal-agnostic, falling back to
the 10000 ms default when unset or unparsable, never raising an error. -/
def resolveEnvTimeout (env : EnvSnapshot) : Nat :=
  match env.signalTimeout.orElse (fun _ => env.genericTimeout) with
  | some s => (parseEnvTimeout s).getD TIMEOUT_DEFAULT_MILLIS
  | none => TIMEOUT_DEFAULT_MILLIS

/-- Modelled from the spec: the failure the Config Resolver raises for a
strictly rejected explicit setting ("invalid explicit timeout is a caller
error, not silently ignored"); the spec names no `Error` variant for it, so
it is its own type. -/
inductive ResolveError where
  | nonPositiveTimeout (millis : Nat)
  deriving DecidableEq, Repr

/-- Modelled from the spec: the timeout half of the Config Resolver invoked
by `build()`.  An explicit `with_timeout` value is validated strictly (a
non-positive duration is a caller error); absent an explicit call the
environment is consulted permissively. -/
def resolveTimeout (explicit : Option Nat) (env : EnvSnapshot) : Except ResolveError Nat :=
  match explicit with
  | some t => if 0 < t then Except.ok t else Except.error (ResolveError.nonPositiveTimeout t)
  | none => Except.ok (resolveEnvTimeout env)

/-- Modelled from the spec: the Compression Selector,
`select(name) -> Result<Compression, Error>` with compile-time feature
availability passed as flags.  Empty or `"none"` resolves to no compression;
a known algorithm whose feature is absent fails with
`FeatureRequiredForCompressionAlgorithm` naming the feature (`gzip-tonic`,
`zstd-tonic` per the crate's feature list); an unknown name fails with
`UnsupportedCompressionAlgorithm` carrying the input. -/
def select (gzipEnabled zstdEnabled : Bool) (name : String) : Except Error (Option Compression) :=
  if name = "" ∨ name = "none" then
    Except.ok none
  else if name = "gzip" then
    if gzipEnabled then
      Except.ok (some Compression.gzip)
    else
      Except.error (Error.FeatureRequiredForCompressionAlgorithm "gzip-tonic" Compression.gzip)
  else if name = "zstd" then
    if zstdEnabled then
      Except.ok (some Compression.zstd)
    else
      Except.error (Error.FeatureRequiredForCompressionAlgorithm "zstd-tonic" Compression.zstd)
  else
    Except.error (Error.UnsupportedCompressionAlgorithm name)

/-- An injected HTTP client implementation, opaque to this layer. -/
structure HttpClient where
  id : Nat
  deriving DecidableEq, Repr

/-- Modelled from the spec: the HTTP-variant exporter builder's configuration
surface as far as the claims need it, endpoint and timeout settings plus the
optionally injected client (`HttpExporterBuilder` lives in the `exporter`
module, outside the visible source). -/
structure HttpExporterBuilder where
  endpoint : Option String
  timeoutMillis : Option Nat
  client : Option HttpClient
  deriving DecidableEq, Repr

/-- `HttpExporterBuilder::default()`: nothing configured, no client
injected. -/
def HttpExporterBuilder.default : HttpExporterBuilder :=
  { endpoint := none, timeoutMillis := none, client := none }

/-- The built HTTP exporter: a concrete client plus the resolved
configuration. -/
structure HttpExporter where
  client : HttpClient
  endpoint : String
  timeoutMillis : Nat
  deriving DecidableEq, Repr

/-- Modelled from the spec: `build()` for the HTTP-variant builder.
`compiledDefaultClient` is the client implementation the enabled features
provide, if any.  The client requirement is checked before anything else;
without an injected client and without a default implementation the build
fails with `NoHttpClient`.  The second component counts the transport
resources allocated during the call: zero on that failure path, one for the
exporter's client otherwise. -/
def HttpExporterBuilder.build (compiledDefaultClient : Option HttpClient)
    (env : EnvSnapshot) (b : HttpExporterBuilder) : Except Error HttpExporter × Nat :=
  match b.client.orElse (fun _ => compiledDefaultClient) with
  | none => (Except.error Error.NoHttpClient, 0)
  | some c =>
    (Except.ok
      { client := c
        endpoint := resolveEndpoint b.endpoint env
        timeoutMillis := resolveEnvTimeout env }, 1)

/-- Modelled from the spec: the gRPC exporter builder; only its `default`
value is observable through `lib.rs`, so the embedding records only that the
entry point hands out exactly that value. -/
structure TonicExporterBuilder where
  isDefault : Bool
  deriving DecidableEq, Repr

/-- `TonicExporterBuilder::default()`. -/
def TonicExporterBuilder.default : TonicExporterBuilder :=
  { isDefault := true }

/-- `OtlpExporterPipeline` (`lib.rs` line 273): a unit struct, carrying no
configuration state. -/
structure OtlpExporterPipeline where
  deriving DecidableEq, Repr

/-- `OtlpExporterPipeline::tonic` (`lib.rs` lines 280-282): consumes the
pipeline value and returns `TonicExporterBuilder::default()`. -/
def OtlpExporterPipeline.tonic (_ : OtlpExporterPipeline) : TonicExporterBuilder :=
  TonicExporterBuilder.default

/-- `OtlpExporterPipeline::http` (`lib.rs` lines 289-291): consumes the
pipeline value and returns `HttpExporterBuilder::default()`. -/
def OtlpExporterPipeline.http (_ : OtlpExporterPipeline) : HttpExporterBuilder :=
  HttpExporterBuilder.default

/-- `new_exporter()` (`lib.rs` lines 311-313). -/
def new_exporter : OtlpExporterPipeline :=
  OtlpExporterPipeline.mk

/-- C1: converting a tonic status with code `Unknown` and a non-empty message
yields an `Error::Status` whose message field carries the original message
text verbatim (as an unmodified infix) with the source detail appended after
it; converting a status with an empty message yields an `Error::Status` with
the empty message field. -/
theorem c1_status_conversion_message (s : TonicStatus) :
    (s.code = Code.unknown → s.message ≠ "" →
      errorFromTonicStatus s =
        Error.Status Code.unknown
          (", detailed error message: " ++ s.message ++ " " ++ sourceDetail s) ∧
      s.message.data <:+:
        (", detailed error message: " ++ s.message ++ " " ++ sourceDetail s).data) ∧
    (s.message = "" → errorFromTonicStatus s = Error.Status s.code "") := by
  constructor
  · intro hc hm
    constructor
    · simp [errorFromTonicStatus, hc, hm]
    · refine ⟨", detailed error message: ".data, (" " ++ sourceDetail s).data, ?_⟩
      simp [String.data_append]
  · intro hm
    simp [errorFromTonicStatus, hm]

/-- Witness for C1 at the concrete statuses
`(Unknown, "boom", source "cause")` and `(Ok, "", no source)`. -/
theorem c1_status_conversion_message_witness :
    errorFromTonicStatus ⟨Code.unknown, "boom", some "cause"⟩ =
      Error.Status Code.unknown ", detailed error message: boom cause" ∧
    errorFromTonicStatus ⟨Code.ok, "", none⟩ = Error.Status Code.ok "" := by
  refine ⟨?_, (c1_status_conversion_message ⟨Code.ok, "", none⟩).2 rfl⟩
  have h := (c1_status_conversion_message ⟨Code.unknown, "boom", some "cause"⟩).1 rfl (by decide)
  exact h.1.trans (by decide)

/-- C2 counterexample: at the status `(Unknown, "", source "cause")` the
conversion does preserve the code, but the resulting message is the empty
string, which does not carry the source detail `"cause"` anywhere, so the
message of an `Unknown`-coded status is not always augmented with source
detail. -/
theorem c2_counterexample :
    (errorFromTonicStatus ⟨Code.unknown, "", some "cause"⟩).statusCode = some Code.unknown ∧
    ¬ messageContainsSourceDetail ⟨Code.unknown, "", some "cause"⟩ := by
  exact ⟨rfl, by decide⟩

/-- C2 (amended): for every converted status the resulting code field equals
the remote status's code, and whenever that code is `Unknown` and the remote
message is non-empty the resulting message is augmented with the source
detail. -/
theorem c2_code_preserved_and_source_detail (s : TonicStatus) :
    (errorFromTonicStatus s).statusCode = some s.code ∧
    (s.code = Code.unknown → s.message ≠ "" → messageContainsSourceDetail s) := by
  refine ⟨rfl, fun hc hm => ?_⟩
  unfold messageContainsSourceDetail
  have hmsg : (errorFromTonicStatus s).statusMessage.getD "" =
      ", detailed error message: " ++ s.message ++ " " ++ sourceDetail s := by
    simp [errorFromTonicStatus, Error.statusMessage, hc, hm]
  rw [hmsg]
  refine ⟨(", detailed error message: " ++ s.message ++ " ").data, [], ?_⟩
  simp [String.data_append]

/-- Witness for the amended C2 at the status `(Unknown, "boom", source
"cause")`. -/
theorem c2_code_preserved_and_source_detail_witness :
    (errorFromTonicStatus ⟨Code.unknown, "boom", some "cause"⟩).statusCode =
      some Code.unknown ∧
    messageContainsSourceDetail ⟨Code.unknown, "boom", some "cause"⟩ :=
  ⟨(c2_code_preserved_and_source_detail ⟨Code.unknown, "boom", some "cause"⟩).1,
   (c2_code_preserved_and_source_detail ⟨Code.unknown, "boom", some "cause"⟩).2 rfl (by decide)⟩

/-- C3: the error taxonomy is closed, every `Error` value is one of exactly
the eleven listed kinds and no other, and each transport library's native
error type has a `From`-style conversion into `Error` landing in its
dedicated variant. -/
theorem c3_error_taxonomy_closed :
    (∀ e : Error,
      (∃ t, e = Error.Transport t) ∨
      (∃ u, e = Error.InvalidUri u) ∨
      (∃ c m, e = Error.Status c m) ∨
      e = Error.NoHttpClient ∨
      (∃ h, e = Error.RequestFailed h) ∨
      (∃ v, e = Error.InvalidHeaderValue v) ∨
      (∃ n, e = Error.InvalidHeaderName n) ∨
      (∃ p, e = Error.EncodeError p) ∨
      (∃ r, e = Error.PoisonedLock r) ∨
      (∃ a, e = Error.UnsupportedCompressionAlgorithm a) ∨
      (∃ f a, e = Error.FeatureRequiredForCompressionAlgorithm f a)) ∧
    (∀ t, errorFromTransport t = Error.Transport t) ∧
    (∀ u, errorFromInvalidUri u = Error.InvalidUri u) ∧
    (∀ s, ∃ m, errorFromTonicStatus s = Error.Status s.code m) ∧
    (∀ h, errorFromHttpError h = Error.RequestFailed h) ∧
    (∀ v, errorFromInvalidHeaderValue v = Error.InvalidHeaderValue v) ∧
    (∀ n, errorFromInvalidHeaderName n = Error.InvalidHeaderName n) ∧
    (∀ p, errorFromProstEncodeError p = Error.EncodeError p) := by
  refine ⟨fun e => ?_, fun _ => rfl, fun _ => rfl, fun s => ⟨_, rfl⟩,
    fun _ => rfl, fun _ => rfl, fun _ => rfl, fun _ => rfl⟩
  cases e <;> simp

/-- C4: every compression name outside the known set (not empty, not
`"none"`, not `"gzip"`, not `"zstd"`) makes `select` fail with
`UnsupportedCompressionAlgorithm` carrying exactly the requested string,
whatever features are compiled in. -/
theorem c4_unsupported_compression (g z : Bool) (name : String)
    (h1 : name ≠ "") (h2 : name ≠ "none") (h3 : name ≠ "gzip") (h4 : name ≠ "zstd") :
    select g z name = Except.error (Error.UnsupportedCompressionAlgorithm name) := by
  simp [select, h1, h2, h3, h4]

/-- Witness for C4 at the unknown name `"brotli"`. -/
theorem c4_unsupported_compression_witness :
    select true true "brotli" = Except.error (Error.UnsupportedCompressionAlgorithm "brotli") :=
  c4_unsupported_compression true true "brotli" (by decide) (by decide) (by decide) (by decide)

/-- C5: a known algorithm whose supporting feature is not compiled in makes
`select` fail with `FeatureRequiredForCompressionAlgorithm` carrying the
required feature name together with the requested algorithm. -/
theorem c5_feature_required (g z : Bool) :
    (g = false → select g z "gzip" =
      Except.error (Error.FeatureRequiredForCompressionAlgorithm "gzip-tonic" Compression.gzip)) ∧
    (z = false → select g z "zstd" =
      Except.error (Error.FeatureRequiredForCompressionAlgorithm "zstd-tonic" Compression.zstd)) := by
  constructor <;> intro h <;> subst h <;> simp [select]

/-- Witness for C5 with one feature absent at a time. -/
theorem c5_feature_required_witness :
    select false true "gzip" =
      Except.error (Error.FeatureRequiredForCompressionAlgorithm "gzip-tonic" Compression.gzip) ∧
    select true false "zstd" =
      Except.error (Error.FeatureRequiredForCompressionAlgorithm "zstd-tonic" Compression.zstd) :=
  ⟨(c5_feature_required false true).1 rfl, (c5_feature_required true false).2 rfl⟩

/-- C6: building an HTTP-variant exporter with no injected client while no
default client implementation is compiled in fails with `NoHttpClient`, and
the allocation count of the call is zero, whatever else was configured and
whatever the environment holds. -/
theorem c6_no_http_client (b : HttpExporterBuilder) (env : EnvSnapshot)
    (h : b.client = none) :
    b.build none env = (Except.error Error.NoHttpClient, 0) := by
  simp [HttpExporterBuilder.build, h]

/-- Witness for C6 at the default builder and an empty environment. -/
theorem c6_no_http_client_witness :
    HttpExporterBuilder.default.build none ⟨none, none, none, none⟩ =
      (Except.error Error.NoHttpClient, 0) :=
  c6_no_http_client HttpExporterBuilder.default ⟨none, none, none, none⟩ rfl

/-- C7: an explicit endpoint always wins over the environment; with no
explicit call the signal-specific environment value wins over the
signal-agnostic one; with neither set the resolver yields the built-in
default `http://localhost:4317`. -/
theorem c7_endpoint_precedence (env : EnvSnapshot) :
    (∀ v, resolveEndpoint (some v) env = v) ∧
    (∀ v, env.signalEndpoint = some v → resolveEndpoint none env = v) ∧
    (env.signalEndpoint = none → ∀ v, env.genericEndpoint = some v →
      resolveEndpoint none env = v) ∧
    (env.signalEndpoint = none → env.genericEndpoint = none →
      resolveEndpoint none env = "http://localhost:4317") := by
  refine ⟨fun v => rfl, fun v hv => ?_, fun hs v hv => ?_, fun hs hg => ?_⟩
  · simp [resolveEndpoint, hv]
  · simp [resolveEndpoint, hs, hv]
  · simp [resolveEndpoint, hs, hg, ENDPOINT_DEFAULT]

/-- Witness for C7 exercising all four precedence levels on concrete
environments. -/
theorem c7_endpoint_precedence_witness :
    resolveEndpoint (some "http://collector:4318")
      ⟨some "http://sig:1", some "http://gen:2", none, none⟩ = "http://collector:4318" ∧
    resolveEndpoint none ⟨some "http://sig:1", some "http://gen:2", none, none⟩ =
      "http://sig:1" ∧
    resolveEndpoint none ⟨none, some "http://gen:2", none, none⟩ = "http://gen:2" ∧
    resolveEndpoint none ⟨none, none, none, none⟩ = "http://localhost:4317" :=
  ⟨(c7_endpoint_precedence ⟨some "http://sig:1", some "http://gen:2", none, none⟩).1 _,
   (c7_endpoint_precedence ⟨some "http://sig:1", some "http://gen:2", none, none⟩).2.1 _ rfl,
   (c7_endpoint_precedence ⟨none, some "http://gen:2", none, none⟩).2.2.1 rfl _ rfl,
   (c7_endpoint_precedence ⟨none, none, none, none⟩).2.2.2 rfl rfl⟩

/-- C8: timeout validation is asymmetric, a non-numeric environment value
such as `"abc"` makes the resolver fall back to the 10000 ms default without
an error, while an explicit zero-millisecond timeout makes resolution (and
hence `build()`) fail with an error. -/
theorem c8_timeout_asymmetry (env : EnvSnapshot) :
    (env.signalTimeout = some "abc" →
      resolveTimeout none env = Except.ok TIMEOUT_DEFAULT_MILLIS) ∧
    resolveTimeout (some 0) env = Except.error (ResolveError.nonPositiveTimeout 0) := by
  refine ⟨fun h => ?_, rfl⟩
  simp [resolveTimeout, resolveEnvTimeout, h, parseEnvTimeout]

/-- Witness for C8 at the environment holding `"abc"`. -/
theorem c8_timeout_asymmetry_witness :
    resolveTimeout none ⟨none, none, some "abc", none⟩ = Except.ok TIMEOUT_DEFAULT_MILLIS ∧
    resolveTimeout (some 0) ⟨none, none, some "abc", none⟩ =
      Except.error (ResolveError.nonPositiveTimeout 0) :=
  ⟨(c8_timeout_asymmetry ⟨none, none, some "abc", none⟩).1 rfl,
   (c8_timeout_asymmetry ⟨none, none, some "abc", none⟩).2⟩

/-- C9: `exporter_name` of the `ExportError` implementation returns `"otlp"`
on every value of `Error`, regardless of the variant. -/
theorem c9_exporter_name (e : Error) : e.exporterName = "otlp" :=
  rfl

/-- C10: the exporter entry point carries no configuration state (all
`OtlpExporterPipeline` values are equal), and `tonic`/`http` on any pipeline
value, in particular on `new_exporter()`, return exactly
`TonicExporterBuilder::default()` and `HttpExporterBuilder::default()`; the
single-use consumption of the pipeline value is enforced by the source's
by-value `self` receivers. -/
theorem c10_entry_point_stateless :
    (∀ p q : OtlpExporterPipeline, p = q) ∧
    (∀ p : OtlpExporterPipeline, p.tonic = TonicExporterBuilder.default) ∧
    (∀ p : OtlpExporterPipeline, p.http = HttpExporterBuilder.default) ∧
    new_exporter.tonic = TonicExporterBuilder.default ∧
    new_exporter.http = HttpExporterBuilder.default :=
  ⟨fun _ _ => rfl, fun _ => rfl, fun _ => rfl, rfl, rfl⟩

end Otlp
